import Mathlib

/-
Verification of the HTTP transport core of jsonrpc-client-rs (src/http/src/lib.rs).

The embedding is shallow: pure Rust functions become Lean functions, the
asynchronous dispatch loop becomes (a) a big-step denotation over the finite
sequence of requests the channel delivers and (b) a small-step poll machine
mirroring the futures-0.1 ForEach combinator, and the shared AtomicUsize id
counter becomes explicit state passing over Nat with wrapping at 2 ^ 64
(AtomicUsize::fetch_add wraps on overflow; a 64-bit target is assumed, so
usize = u64 and the "as u64" cast in get_next_id is lossless).
-/

namespace JsonrpcHttp

/-! ## Data model: the hyper types as used by the source -/

/-- The HTTP method of a hyper Request. The source only ever uses Post. -/
inductive Method
  | post
  | get
deriving DecidableEq

/-- A hyper Uri. The source treats it as an opaque parsed address, so we keep
the textual form. -/
abbrev UriModel := String

/-- The two headers the source sets on its outgoing requests
(hyper::header::ContentType and hyper::header::ContentLength). A fresh
request has neither. ContentLength holds a u64; lengths of in-memory byte
vectors never exceed it on a 64-bit target, so we use Nat. -/
structure Headers where
  contentType : Option String
  contentLength : Option Nat
deriving DecidableEq

/-- A hyper Request: method, uri, headers and body bytes. -/
structure HRequest where
  method : Method
  uri : UriModel
  headers : Headers
  body : List Nat
deriving DecidableEq

/-- hyper::Request::new(method, uri): no headers set, empty body. -/
def RequestNew (m : Method) (u : UriModel) : HRequest :=
  { method := m, uri := u, headers := { contentType := none, contentLength := none }, body := [] }

/-! ## Error model: the error_chain kinds of lib.rs -/

/-- ErrorKind of the error_chain block in lib.rs, including the foreign
links Hyper(hyper::Error) and Uri(hyper::error::UriError), whose payloads we
keep as display strings. -/
inductive ErrorKind
  | clientBuilderError
  | httpError (httpCode : Nat)
  | tokioCoreError (msg : String)
  | hyper (e : String)
  | uri (e : String)
deriving DecidableEq

/-- An error_chain Error: its kind plus the chained cause, collapsed to the
display string of the wrapped error (Error::with_chain keeps the cause; the
claims only inspect the kind, so one level of cause is retained). -/
structure RpcError where
  kind : ErrorKind
  cause : Option String
deriving DecidableEq

/-- Result<Vec<u8>> as produced by the dispatch loop and consumed by send. -/
abbrev RpcResult := Except RpcError (List Nat)

/-! ## Transport and handle state

The mpsc UnboundedSender clones and the Arc<AtomicUsize> clones are modelled
by identity tokens: two values holding the same token share the same channel
or the same counter cell. The counter VALUE is threaded explicitly where a
claim is about the ids produced. -/

/-- HttpTransport: a clone of the request channel producer plus the shared
Arc<AtomicUsize> id counter (both as identity tokens). -/
structure HttpTransport where
  request_tx : Nat
  id : Nat
deriving DecidableEq

/-- HttpTransport::new (lib.rs 229-234). The second component is the value
stored in the freshly allocated counter: AtomicUsize::new(1). -/
def HttpTransport.new (request_tx : Nat) (idRef : Nat) : HttpTransport × Nat :=
  ({ request_tx := request_tx, id := idRef }, 1)

/-- HttpHandle: a clone of the channel producer, the parsed destination Uri,
and a clone of the shared id counter (lib.rs 253-257). -/
structure HttpHandle where
  request_tx : Nat
  uri : UriModel
  id : Nat
deriving DecidableEq

/-- HttpTransport::handle (lib.rs 240-247): parse the address with
Uri::from_str (an external hyper parser, passed in as a function); a parse
failure is converted by the foreign link into ErrorKind::Uri; on success the
handle shares the channel producer and the id counter of the transport. -/
def HttpTransport.handle (t : HttpTransport) (parseUri : String → Except String UriModel)
    (uriStr : String) : Except RpcError HttpHandle :=
  match parseUri uriStr with
  | Except.error e => Except.error { kind := ErrorKind.uri e, cause := none }
  | Except.ok u => Except.ok { request_tx := t.request_tx, uri := u, id := t.id }

/-! ## The id counter -/

/-- Number of values of a usize on the assumed 64-bit target. -/
def usizeSize : Nat := 2 ^ 64

/-- AtomicUsize::fetch_add(1, Ordering::SeqCst): returns the previous value
and stores the incremented value, wrapping on overflow. -/
def fetch_add (c : Nat) : Nat × Nat :=
  (c, (c + 1) % usizeSize)

/-- HttpHandle::get_next_id (lib.rs 275-277): self.id.fetch_add(1) as u64.
On the 64-bit target the cast is the identity. The argument is the current
stored counter value; the result is (returned id, new stored value). -/
def get_next_id (c : Nat) : Nat × Nat :=
  fetch_add c

/-- The ids returned by n successive get_next_id calls starting from stored
counter value c, in call order. Because fetch_add is a single atomic
instruction, every concurrent interleaving of n calls linearizes to such a
sequence; which caller observes which position is a permutation of it. -/
def runIds : Nat → Nat → List Nat
  | _, 0 => []
  | c, n + 1 => (get_next_id c).1 :: runIds (get_next_id c).2 n

/-! ## The request pipeline: create_request and send -/

/-- HttpHandle::create_request (lib.rs 261-271): a POST to self.uri with
ContentType::json(), ContentLength(body.len()), and the body bytes. -/
def HttpHandle.create_request (h : HttpHandle) (body : List Nat) : HRequest :=
  let request := RequestNew Method.post h.uri
  let request := { request with headers := { request.headers with contentType := some "application/json" } }
  let request := { request with headers := { request.headers with contentLength := some body.length } }
  { request with body := body }

/-- What the caller side of the oneshot response channel observes once its
future is polled to completion: either the dispatch loop used the sender
(written), or the sender was dropped unused (oneshot::Canceled). -/
inductive SlotRead
  | written (r : RpcResult)
  | senderDropped

/-- The resolved value of the future returned by HttpHandle::send, plus the
request placed on the channel, if any (none = nothing was submitted, hence
no I/O can ever happen for this call). -/
structure SendOutcome where
  result : RpcResult
  enqueued : Option HRequest

/-- HttpHandle::send (lib.rs 279-298). channelOpen says whether the channel
receiver (owned by the dispatch loop) still exists: UnboundedSender::send
fails exactly when it does not, and the failure is chained into
TokioCoreError("Not listening for requests") and short-circuits the
and_then chain. Otherwise the request is enqueued and the caller awaits the
oneshot receiver: a dropped sender is chained into TokioCoreError("Died
without returning response"); a written result is flattened by
and_then(future::result), so errors written by the loop propagate as-is. -/
def HttpHandle.send (h : HttpHandle) (channelOpen : Bool) (slot : SlotRead)
    (json_data : List Nat) : SendOutcome :=
  let request := h.create_request json_data
  if channelOpen then
    match slot with
    | SlotRead.written r => { result := r, enqueued := some request }
    | SlotRead.senderDropped =>
      { result := Except.error
          { kind := ErrorKind.tokioCoreError "Died without returning response",
            cause := some "oneshot canceled" },
        enqueued := some request }
  else
    { result := Except.error
        { kind := ErrorKind.tokioCoreError "Not listening for requests",
          cause := some "channel receiver was dropped" },
      enqueued := none }

/-! ## The dispatch loop, big-step

create_request_processing_future (lib.rs 160-187) is
request_rx.for_each(closure) where the closure builds, per request, the
future

  client.request(request).from_err()
    .and_then(status check: 200 passes, otherwise HttpError(status))
    .and_then(body concat2).map(to_vec)
    .then(response_tx.send(result).map_err(warn; ()))

The futures-0.1 ForEach combinator drives each closure future to completion
before polling the stream again, and propagates an inner Err(()) as its own
completion. The big-step model below runs the loop over the finite list of
requests the channel delivers. -/

/-- A response body as hyper delivers it: a stream of chunks, or a body
error while streaming. -/
inductive BodyResult
  | chunks (cs : List (List Nat))
  | bodyErr (e : String)

/-- The outcome of client.request(request): a connection-level hyper error,
or a response carrying a status code and a body. -/
inductive HttpOutcome
  | connErr (e : String)
  | response (status : Nat) (body : BodyResult)

/-- The Result<Vec<u8>> produced for one request by the chain inside the
for_each closure (lib.rs 165-178): connection errors via from_err; a
non-200 status becomes ErrorKind::HttpError(status) before the body is
touched; on 200 the chunks are concatenated (concat2) and turned into a
byte vector (to_vec); a body error goes through from_err. -/
def exchangeResult (client : HRequest → HttpOutcome) (request : HRequest) : RpcResult :=
  match client request with
  | HttpOutcome.connErr e => Except.error { kind := ErrorKind.hyper e, cause := none }
  | HttpOutcome.response status body =>
    if status = 200 then
      match body with
      | BodyResult.chunks cs => Except.ok cs.flatten
      | BodyResult.bodyErr e => Except.error { kind := ErrorKind.hyper e, cause := none }
    else
      Except.error { kind := ErrorKind.httpError status, cause := none }

/-- One (request, response_tx) pair read from the channel. slotAlive says
whether the oneshot receiver still exists when delivery is attempted:
oneshot::Sender::send fails exactly when it does not. -/
structure PendingRequest where
  request : HRequest
  slotAlive : Bool

/-- How the loop future completed: the stream ended because every producer
was dropped (Ok(())), or an inner delivery failure Err(()) was propagated
by ForEach. -/
inductive LoopEnd
  | channelClosed
  | erroredOut

/-- Observable outcome of running the loop: how it ended, the value written
into the slot of each request it consumed (none = the slot was dead, the
exchange result was discarded), and how many warn! lines were logged. -/
structure LoopRun where
  ending : LoopEnd
  delivered : List (Option RpcResult)
  warns : Nat

/-- Big-step run of the future built by create_request_processing_future
over the finite sequence of requests the channel delivers before its
producers drop. Delivery to a dead slot logs the warn! and makes the
closure future resolve Err(()), which ForEach propagates: the loop
completes and consumes nothing further. -/
def runRequestProcessing (client : HRequest → HttpOutcome) :
    List PendingRequest → LoopRun
  | [] => { ending := LoopEnd.channelClosed, delivered := [], warns := 0 }
  | pr :: rest =>
    let response_result := exchangeResult client pr.request
    if pr.slotAlive then
      let t := runRequestProcessing client rest
      { ending := t.ending, delivered := some response_result :: t.delivered, warns := t.warns }
    else
      { ending := LoopEnd.erroredOut, delivered := [none], warns := 1 }

/-! ## The dispatch loop, small-step

A poll-level machine for the same ForEach future, used to settle the
concurrency claim. Each exchange is abstracted to the number of polls its
HTTP future returns NotReady before resolving, plus whether its final
delivery (the Result<(),()> of the then-closure) succeeds. -/

/-- One request as seen by the poll machine: an identity, the number of
NotReady polls of its exchange future, and whether delivery succeeds. -/
structure Exchange where
  rid : Nat
  latency : Nat
  deliveryOk : Bool
deriving DecidableEq

/-- Trace events: an exchange future is created from a stream item (start)
or resolves (finish). -/
inductive LoopEvent
  | start (rid : Nat)
  | finish (rid : Nat)
deriving DecidableEq

/-- Whether the ForEach future is still being polled, resolved Ok (channel
closed), or resolved Err (propagated delivery failure). -/
inductive LoopStatus
  | running
  | done
  | errored
deriving DecidableEq

/-- State of the ForEach combinator: the items still in the (closed, finite)
channel, the in-flight closure future if any — ForEach stores at most one —
and the event log. -/
structure LoopState where
  queue : List Exchange
  current : Option Exchange
  events : List LoopEvent
  status : LoopStatus
deriving DecidableEq

/-- One micro-step of ForEach::poll: poll the in-flight future if there is
one (NotReady decrements its remaining latency; Ready finishes it, an Err
result being propagated), otherwise poll the stream for the next item
(starting its future) or resolve when the stream is exhausted. -/
def pollStep (s : LoopState) : LoopState :=
  match s.status with
  | LoopStatus.done => s
  | LoopStatus.errored => s
  | LoopStatus.running =>
    match s.current with
    | some ex =>
      match ex.latency with
      | n + 1 => { s with current := some { rid := ex.rid, latency := n, deliveryOk := ex.deliveryOk } }
      | 0 =>
        if ex.deliveryOk then
          { s with current := none, events := s.events ++ [LoopEvent.finish ex.rid] }
        else
          { s with current := none, events := s.events ++ [LoopEvent.finish ex.rid],
                   status := LoopStatus.errored }
    | none =>
      match s.queue with
      | [] => { s with status := LoopStatus.done }
      | ex :: rest =>
        { s with queue := rest, current := some ex,
                 events := s.events ++ [LoopEvent.start ex.rid] }

/-- Iterate pollStep n times. -/
def runSteps (s : LoopState) : Nat → LoopState
  | 0 => s
  | n + 1 => runSteps (pollStep s) n

/-- The loop as spawned: full channel content, nothing in flight yet. -/
def initLoop (queue : List Exchange) : LoopState :=
  { queue := queue, current := none, events := [], status := LoopStatus.running }

/-- Fully sequential event logs: a concatenation of immediately matched
start/finish pairs. -/
inductive SeqTrace : List LoopEvent → Prop
  | nil : SeqTrace []
  | pair (r : Nat) {es : List LoopEvent} :
      SeqTrace es → SeqTrace (es ++ [LoopEvent.start r, LoopEvent.finish r])

/-- Sequential event logs possibly ending in one still-open exchange. -/
inductive SeqState : List LoopEvent → Prop
  | paired {es : List LoopEvent} : SeqTrace es → SeqState es
  | pending (r : Nat) {es : List LoopEvent} :
      SeqTrace es → SeqState (es ++ [LoopEvent.start r])

/-- Invariant tying the in-flight future to the event log: with nothing in
flight the log is fully paired; with an exchange in flight the log is a
fully paired log followed by that exchange's start. -/
def LoopInv (s : LoopState) : Prop :=
  (s.current = none → SeqTrace s.events) ∧
  (∀ ex, s.current = some ex →
    ∃ es, s.events = es ++ [LoopEvent.start ex.rid] ∧ SeqTrace es)

/-! ## The builder

HttpTransportBuilder::build (lib.rs 117-143) and create_standalone_core
(lib.rs 146-156). The client-construction strategy and Core::new are
external effects, passed in as their outcomes; the channel producer and the
counter cell are identity tokens as above. -/

/-- What the standalone background thread did: the value it sent back over
the std::sync::mpsc handoff, and whether it went on to run the event loop
(core.run) at all. -/
structure ThreadRun where
  sent : Except RpcError HttpTransport
  ranEventLoop : Bool

/-- create_standalone_core (lib.rs 146-156): Core::new, chained into
TokioCoreError("Unable to create") on failure; then the client builder,
chained into ClientBuilderError on failure; then the channel and the
processing future. The returned token stands for the created request_tx. -/
def create_standalone_core (coreNew : Except String Unit)
    (clientBuild : Except String Unit) (request_tx : Nat) : Except RpcError Nat :=
  match coreNew with
  | Except.error e =>
    Except.error { kind := ErrorKind.tokioCoreError "Unable to create", cause := some e }
  | Except.ok _ =>
    match clientBuild with
    | Except.error e => Except.error { kind := ErrorKind.clientBuilderError, cause := some e }
    | Except.ok _ => Except.ok request_tx

/-- The body of the thread spawned in the no-handle branch of build
(lib.rs 128-139): on a core error the error is sent back and the thread
falls through to its trailing debug! and exits without running anything; on
success the transport is sent back and core.run drives the loop. -/
def standaloneThread (coreNew : Except String Unit) (clientBuild : Except String Unit)
    (request_tx idRef : Nat) : ThreadRun :=
  match create_standalone_core coreNew clientBuild request_tx with
  | Except.error e => { sent := Except.error e, ranEventLoop := false }
  | Except.ok tx => { sent := Except.ok (HttpTransport.new tx idRef).1, ranEventLoop := true }

/-- HttpTransportBuilder::build (lib.rs 117-143). With a handle (embedded
mode) the client is built against it — failure chained into
ClientBuilderError — and the loop is spawned on the caller's reactor; no
thread is spawned and Core::new is never called. Without a handle
(standalone mode) the spawned thread runs standaloneThread and build
returns whatever it sent back over the handoff. -/
def build (handleOpt : Option Unit) (coreNew : Except String Unit)
    (clientBuild : Except String Unit) (request_tx idRef : Nat) :
    Except RpcError HttpTransport × Option ThreadRun :=
  match handleOpt with
  | some _ =>
    match clientBuild with
    | Except.error e =>
      (Except.error { kind := ErrorKind.clientBuilderError, cause := some e }, none)
    | Except.ok _ => (Except.ok (HttpTransport.new request_tx idRef).1, none)
  | none =>
    let t := standaloneThread coreNew clientBuild request_tx idRef
    (t.sent, some t)

/-! ## Helper lemmas -/

theorem usizeSize_pos : 0 < usizeSize := by decide

/-- Ids of n wrap-free calls from stored value c form the consecutive run
starting at c. -/
theorem runIds_range (k N : Nat) (h : k + N ≤ usizeSize) :
    runIds k N = List.range' k N := by
  induction N generalizing k with
  | zero => rfl
  | succ M ih =>
    show k :: runIds ((k + 1) % usizeSize) M = List.range' k (M + 1)
    cases M with
    | zero => rfl
    | succ L =>
      have hlt : k + 1 < usizeSize := by omega
      rw [Nat.mod_eq_of_lt hlt, ih (k + 1) (by omega)]
      rfl

/-- The id returned by the call at position i (0-based) of a run of n calls
from stored value c is (c + i) % 2 ^ 64, wrap included. -/
theorem runIds_get (c i n : Nat) (hc : c < usizeSize) (h : i < n) :
    (runIds c n).get? i = some ((c + i) % usizeSize) := by
  induction n generalizing c i with
  | zero => omega
  | succ m ih =>
    cases i with
    | zero =>
      show some c = some ((c + 0) % usizeSize)
      rw [Nat.add_zero, Nat.mod_eq_of_lt hc]
    | succ j =>
      have hj : j < m := by omega
      have hc2 : (c + 1) % usizeSize < usizeSize := Nat.mod_lt _ usizeSize_pos
      show (runIds ((c + 1) % usizeSize) m).get? j = _
      rw [ih ((c + 1) % usizeSize) j hc2 hj, Nat.mod_add_mod]
      have hadd : c + 1 + j = c + (j + 1) := by omega
      rw [hadd]

/-- The poll machine starts in a state satisfying the loop invariant. -/
theorem initLoop_inv (q : List Exchange) : LoopInv (initLoop q) := by
  constructor
  · intro _
    exact SeqTrace.nil
  · intro ex hx
    exact absurd hx (by simp [initLoop])

/-- pollStep preserves the loop invariant. -/
theorem pollStep_inv {s : LoopState} (h : LoopInv s) : LoopInv (pollStep s) := by
  obtain ⟨queue, current, events, status⟩ := s
  cases status with
  | done => exact h
  | errored => exact h
  | running =>
    cases current with
    | none =>
      cases queue with
      | nil => exact h
      | cons ex rest =>
        constructor
        · intro hx
          exact absurd hx (by simp [pollStep])
        · intro ex' hx
          have hex : ex = ex' := by
            simpa [pollStep] using hx
          subst hex
          exact ⟨events, rfl, h.1 rfl⟩
    | some ex =>
      obtain ⟨rid, lat, dok⟩ := ex
      obtain ⟨es, hev, hseq⟩ := h.2 ⟨rid, lat, dok⟩ rfl
      cases lat with
      | succ n =>
        constructor
        · intro hx
          exact absurd hx (by simp [pollStep])
        · intro ex' hx
          have hex : ex' = ⟨rid, n, dok⟩ := by
            simpa [pollStep] using hx.symm
          subst hex
          exact ⟨es, hev, hseq⟩
      | zero =>
        have hfin : SeqTrace (events ++ [LoopEvent.finish rid]) := by
          have hev' : events = es ++ [LoopEvent.start rid] := hev
          rw [hev', List.append_assoc]
          exact SeqTrace.pair rid hseq
        cases dok with
        | true =>
          constructor
          · intro _
            exact hfin
          · intro ex' hx
            exact absurd hx (by simp [pollStep])
        | false =>
          constructor
          · intro _
            exact hfin
          · intro ex' hx
            exact absurd hx (by simp [pollStep])

/-- The loop invariant holds after any number of micro-steps. -/
theorem runSteps_inv {s : LoopState} (h : LoopInv s) (n : Nat) :
    LoopInv (runSteps s n) := by
  induction n generalizing s with
  | zero => exact h
  | succ m ih => exact ih (pollStep_inv h)

/-! ## Claim theorems -/

/-- C1: the claim says the Dispatch Loop terminates only when the channel
producer side is fully dropped and that a failed delivery to an abandoned
slot is logged but not escalated, the loop continuing with subsequent
requests. The code disagrees: the warn! is logged, but the closure future
then resolves Err(()), which ForEach propagates, completing the loop.
Evaluated at the failing input — an abandoned first caller followed by a
live second request, with the HTTP exchanges succeeding — the loop errors
out after the first request; the second is never consumed and its live
caller never receives anything. -/
theorem c1_loop_dies_on_failed_delivery :
    runRequestProcessing (fun _ => HttpOutcome.response 200 (BodyResult.chunks [[42]]))
        [ { request := RequestNew Method.post "http://a", slotAlive := false },
          { request := RequestNew Method.post "http://a", slotAlive := true } ]
      = { ending := LoopEnd.erroredOut, delivered := [none], warns := 1 } := rfl

/-- C2 (amended): the Dispatch Loop processes Pending Requests
sequentially, not concurrently. ForEach keeps at most one closure future in
flight, and at every reachable poll state the event log is an alternation
start r1, finish r1, start r2, finish r2, ... (possibly with the last
exchange still open): the next exchange starts only after the previous one
has fully finished. -/
theorem c2_loop_is_sequential (q : List Exchange) (n : Nat) :
    SeqState ((runSteps (initLoop q) n).events) := by
  have h := runSteps_inv (initLoop_inv q) n
  cases hc : (runSteps (initLoop q) n).current with
  | none => exact SeqState.paired (h.1 hc)
  | some ex =>
    obtain ⟨es, hev, hseq⟩ := h.2 ex hc
    rw [hev]
    exact SeqState.pending ex.rid hseq

/-- C2 (counterexample): with two requests already in the channel, each of
whose exchanges needs one extra poll, the loop is two micro-steps in with
exchange 1 still in flight and request 2 still waiting unstarted in the
channel, and the complete trace starts exchange 2 only after exchange 1 has
finished — refuting the claim that the loop does not wait for one exchange
to finish before handling the next request. -/
theorem c2_counterexample :
    (runSteps (initLoop [⟨1, 1, true⟩, ⟨2, 1, true⟩]) 2).events = [LoopEvent.start 1]
    ∧ (runSteps (initLoop [⟨1, 1, true⟩, ⟨2, 1, true⟩]) 2).queue = [⟨2, 1, true⟩]
    ∧ (runSteps (initLoop [⟨1, 1, true⟩, ⟨2, 1, true⟩]) 2).current = some ⟨1, 0, true⟩
    ∧ (runSteps (initLoop [⟨1, 1, true⟩, ⟨2, 1, true⟩]) 7).events
        = [LoopEvent.start 1, LoopEvent.finish 1, LoopEvent.start 2, LoopEvent.finish 2]
    ∧ (runSteps (initLoop [⟨1, 1, true⟩, ⟨2, 1, true⟩]) 7).status = LoopStatus.done :=
  ⟨rfl, rfl, rfl, rfl, rfl⟩

/-- C3 (amended): as long as the shared counter does not wrap around the
usize width during the transport's life (k + N ≤ 2 ^ 64 for the window
considered), any interleaving of N get_next_id calls — i.e. any permutation
of the linearized id sequence — returns exactly the set
Finset.Ico k (k + N) = set of k, k+1, ..., k+N-1, with no duplicates. -/
theorem c3_ids_form_consecutive_set (k N : Nat) (ids : List Nat)
    (hwrap : k + N ≤ usizeSize) (hinter : ids.Perm (runIds k N)) :
    ids.Nodup ∧ ids.toFinset = Finset.Ico k (k + N) := by
  rw [runIds_range k N hwrap] at hinter
  constructor
  · exact hinter.nodup_iff.mpr (List.nodup_range' k N)
  · ext x
    rw [List.mem_toFinset, hinter.mem_iff, List.mem_range'_1, Finset.mem_Ico]

/-- C3 witness: three calls from stored counter value 5, observed by the
callers in the order 6, 5, 7, form exactly the set Ico 5 8 without
duplicates. -/
theorem c3_witness :
    5 + 3 ≤ usizeSize ∧ ([6, 5, 7] : List Nat).Perm (runIds 5 3)
    ∧ ([6, 5, 7] : List Nat).Nodup
    ∧ ([6, 5, 7] : List Nat).toFinset = Finset.Ico 5 (5 + 3) := by
  refine ⟨by decide, by decide, ?_, ?_⟩
  · exact (c3_ids_form_consecutive_set 5 3 [6, 5, 7] (by decide) (by decide)).1
  · exact (c3_ids_form_consecutive_set 5 3 [6, 5, 7] (by decide) (by decide)).2

/-- C3 (counterexample): the claim as stated fails at the wrap of the
counter, which the code reaches after 2 ^ 64 - 2 further calls from a fresh
transport: calls number 2 ^ 64 - 1 and 2 ^ 64 (a window of N = 2 calls)
return the ids 2 ^ 64 - 1 and 0, two distinct values that are not
consecutive in either order, so they form no set of shape k, k+1; the
counter has effectively reset to 0. -/
theorem c3_counterexample :
    (runIds (HttpTransport.new 0 0).2 usizeSize).get? (usizeSize - 2) = some (usizeSize - 1)
    ∧ (runIds (HttpTransport.new 0 0).2 usizeSize).get? (usizeSize - 1) = some 0
    ∧ usizeSize - 1 ≠ 0
    ∧ (0 : Nat) ≠ (usizeSize - 1) + 1
    ∧ usizeSize - 1 ≠ 0 + 1 := by
  have hu : 2 ≤ usizeSize := by decide
  have h1 := runIds_get 1 (usizeSize - 2) usizeSize (by decide)
    (Nat.sub_lt usizeSize_pos (by decide))
  have h2 := runIds_get 1 (usizeSize - 1) usizeSize (by decide)
    (Nat.sub_lt usizeSize_pos (by decide))
  have e1 : (1 + (usizeSize - 2)) % usizeSize = usizeSize - 1 := by
    have h : 1 + (usizeSize - 2) = usizeSize - 1 := by omega
    rw [h]
    exact Nat.mod_eq_of_lt (by omega)
  have e2 : (1 + (usizeSize - 1)) % usizeSize = 0 := by
    have h : 1 + (usizeSize - 1) = usizeSize := by omega
    rw [h]
    exact Nat.mod_self usizeSize
  rw [e1] at h1
  rw [e2] at h2
  refine ⟨h1, h2, ?_, ?_, ?_⟩ <;> decide

/-- C4: a request whose slot is still live gets exactly the exchange result
written into its slot; a 200 response yields exactly the concatenation of
the body chunks to the caller, and any other status yields an HttpError
carrying that very status code, not a generic failure. -/
theorem c4_status_200_body_other_status_error (client : HRequest → HttpOutcome)
    (h : HttpHandle) (payload : List Nat) (chunks : List (List Nat))
    (st : Nat) (body : BodyResult) :
    (runRequestProcessing client
        [{ request := h.create_request payload, slotAlive := true }]).delivered
      = [some (exchangeResult client (h.create_request payload))]
    ∧ (client (h.create_request payload) = HttpOutcome.response 200 (BodyResult.chunks chunks) →
        (h.send true (SlotRead.written (exchangeResult client (h.create_request payload)))
            payload).result
          = Except.ok chunks.flatten)
    ∧ (st ≠ 200 → client (h.create_request payload) = HttpOutcome.response st body →
        (h.send true (SlotRead.written (exchangeResult client (h.create_request payload)))
            payload).result
          = Except.error { kind := ErrorKind.httpError st, cause := none }) := by
  refine ⟨rfl, ?_, ?_⟩
  · intro hc
    show exchangeResult client (h.create_request payload) = Except.ok chunks.flatten
    unfold exchangeResult
    rw [hc]
    rfl
  · intro hne hc
    show exchangeResult client (h.create_request payload)
        = Except.error { kind := ErrorKind.httpError st, cause := none }
    unfold exchangeResult
    rw [hc]
    simp only [if_neg hne]

/-- C4 witness: a server answering 404 makes the caller receive
HttpError(404). -/
theorem c4_witness :
    ((404 : Nat) ≠ 200)
    ∧ ((fun _ => HttpOutcome.response 404 (BodyResult.chunks []))
          ((HttpHandle.mk 0 "http://x" 0).create_request [7])
        = HttpOutcome.response 404 (BodyResult.chunks []))
    ∧ ((HttpHandle.mk 0 "http://x" 0).send true
          (SlotRead.written (exchangeResult
            (fun _ => HttpOutcome.response 404 (BodyResult.chunks []))
            ((HttpHandle.mk 0 "http://x" 0).create_request [7]))) [7]).result
        = Except.error { kind := ErrorKind.httpError 404, cause := none } := by
  refine ⟨by decide, rfl, ?_⟩
  exact (c4_status_200_body_other_status_error
    (fun _ => HttpOutcome.response 404 (BodyResult.chunks []))
    (HttpHandle.mk 0 "http://x" 0) [7] [] 404 (BodyResult.chunks [])).2.2 (by decide) rfl

/-- C5: for every payload, the request that send builds and enqueues is a
POST to the handle's destination uri with Content-Type application/json,
Content-Length equal to the byte length of the payload, and the raw payload
bytes as body. -/
theorem c5_request_shape (h : HttpHandle) (slot : SlotRead) (payload : List Nat) :
    (h.create_request payload).method = Method.post
    ∧ (h.create_request payload).uri = h.uri
    ∧ (h.create_request payload).headers.contentType = some "application/json"
    ∧ (h.create_request payload).headers.contentLength = some payload.length
    ∧ (h.create_request payload).body = payload
    ∧ (h.send true slot payload).enqueued = some (h.create_request payload) := by
  refine ⟨rfl, rfl, rfl, rfl, rfl, ?_⟩
  cases slot <;> rfl

/-- C6: a send attempted when the channel receiver is gone fails with the
"Not listening for requests" error whatever the slot would have held, and
nothing is ever placed on the channel, so no I/O can be attempted for the
call. -/
theorem c6_not_listening (h : HttpHandle) (slot : SlotRead) (payload : List Nat) :
    (h.send false slot payload).result
      = Except.error { kind := ErrorKind.tokioCoreError "Not listening for requests",
                       cause := some "channel receiver was dropped" }
    ∧ (h.send false slot payload).enqueued = none :=
  ⟨rfl, rfl⟩

/-- C7: a send whose request was accepted onto the channel but whose
oneshot sender is dropped without being used resolves to the "Died without
returning response" error. -/
theorem c7_died_without_returning_response (h : HttpHandle) (payload : List Nat) :
    (h.send true SlotRead.senderDropped payload).result
      = Except.error { kind := ErrorKind.tokioCoreError "Died without returning response",
                       cause := some "oneshot canceled" } := rfl

/-- C8: when the client-construction strategy fails, build returns a
ClientBuilderError in embedded mode (whatever Core::new would have done —
it is never called there) and in standalone mode, and the standalone thread
reports the error and exits without ever running the event loop. -/
theorem c8_client_builder_failure (e : String) (coreNew : Except String Unit)
    (request_tx idRef : Nat) :
    (build (some ()) coreNew (Except.error e) request_tx idRef).1
      = Except.error { kind := ErrorKind.clientBuilderError, cause := some e }
    ∧ (build none (Except.ok ()) (Except.error e) request_tx idRef).1
      = Except.error { kind := ErrorKind.clientBuilderError, cause := some e }
    ∧ (build none (Except.ok ()) (Except.error e) request_tx idRef).2
      = some { sent := Except.error { kind := ErrorKind.clientBuilderError, cause := some e },
               ranEventLoop := false } :=
  ⟨rfl, rfl, rfl⟩

/-- C9: obtaining a handle is fallible: an address string the uri parser
rejects yields an ErrorKind.uri error instead of a handle, and an address
it accepts yields a handle bound to the parsed uri that shares the
transport's channel producer and id counter. -/
theorem c9_handle_fallible_and_shares (t : HttpTransport)
    (parseUri : String → Except String UriModel) (s : String) :
    (∀ e, parseUri s = Except.error e →
      t.handle parseUri s = Except.error { kind := ErrorKind.uri e, cause := none })
    ∧ (∀ u, parseUri s = Except.ok u →
      t.handle parseUri s
        = Except.ok { request_tx := t.request_tx, uri := u, id := t.id }) := by
  constructor
  · intro e he
    unfold HttpTransport.handle
    rw [he]
  · intro u hu
    unfold HttpTransport.handle
    rw [hu]

/-- C9 witness: with a parser rejecting the empty string and accepting
everything else, the empty address yields the uri error and a nonempty one
yields a handle sharing request_tx = 3 and id = 7. -/
theorem c9_witness :
    ((fun s => if s = "" then (Except.error "invalid uri" : Except String UriModel)
        else Except.ok s) "" = Except.error "invalid uri")
    ∧ ((HttpTransport.mk 3 7).handle
        (fun s => if s = "" then (Except.error "invalid uri" : Except String UriModel)
          else Except.ok s) ""
        = Except.error { kind := ErrorKind.uri "invalid uri", cause := none })
    ∧ ((fun s => if s = "" then (Except.error "invalid uri" : Except String UriModel)
        else Except.ok s) "http://h" = Except.ok "http://h")
    ∧ ((HttpTransport.mk 3 7).handle
        (fun s => if s = "" then (Except.error "invalid uri" : Except String UriModel)
          else Except.ok s) "http://h"
        = Except.ok { request_tx := 3, uri := "http://h", id := 7 }) := by
  refine ⟨rfl, ?_, rfl, ?_⟩
  · exact (c9_handle_fallible_and_shares (HttpTransport.mk 3 7)
      (fun s => if s = "" then (Except.error "invalid uri" : Except String UriModel)
        else Except.ok s) "").1 "invalid uri" rfl
  · exact (c9_handle_fallible_and_shares (HttpTransport.mk 3 7)
      (fun s => if s = "" then (Except.error "invalid uri" : Except String UriModel)
        else Except.ok s) "http://h").2 "http://h" rfl

/-- C10 (amended): a freshly built transport stores 1 in its counter, and
because fetch_add returns the value before incrementing, the call at
0-based position i of any run of n calls returns (1 + i) % 2 ^ 64 — that
is, the n-th call returns exactly n for every n below the usize wrap. -/
theorem c10_first_id_one_nth_id_n (tx idRef n i : Nat) (h : i < n) :
    (HttpTransport.new tx idRef).2 = 1
    ∧ (runIds (HttpTransport.new tx idRef).2 n).get? i = some ((1 + i) % usizeSize) := by
  refine ⟨rfl, ?_⟩
  exact runIds_get 1 i n (by decide) h

/-- C10 witness: in a run of three calls on a fresh transport, the second
call (position i = 1) returns 2. -/
theorem c10_witness :
    (1 : Nat) < 3
    ∧ (runIds (HttpTransport.new 0 0).2 3).get? 1 = some 2 := by
  refine ⟨by decide, ?_⟩
  have h := (c10_first_id_one_nth_id_n 0 0 3 1 (by decide)).2
  rwa [show ((1 + 1) % usizeSize) = 2 from by decide] at h

/-- C10 (counterexample): the claim as stated fails at the counter wrap:
the call at position 2 ^ 64 - 1 (the 2 ^ 64-th call) of a fresh transport
returns 0, not 2 ^ 64. -/
theorem c10_counterexample :
    (runIds (HttpTransport.new 0 0).2 usizeSize).get? (usizeSize - 1) = some 0
    ∧ (0 : Nat) ≠ usizeSize := by
  have hu : 1 ≤ usizeSize := by decide
  have h := runIds_get 1 (usizeSize - 1) usizeSize (by decide)
    (Nat.sub_lt usizeSize_pos (by decide))
  have e : (1 + (usizeSize - 1)) % usizeSize = 0 := by
    have h2 : 1 + (usizeSize - 1) = usizeSize := by omega
    rw [h2]
    exact Nat.mod_self usizeSize
  rw [e] at h
  exact ⟨h, by decide⟩

end JsonrpcHttp
